
import Mathlib

/-!
Shallow embedding of the spreadsheet-backed ledger operations of the
discord bot (`bot.py`).

The remote spreadsheet API is modelled by the data it returns:

* a fetched column range (`Logs!C:C`, `Logs!C7:C`, …) is a
  `List (List String)` — one inner list of cell strings per returned row
  (the real API omits the `values` key for an empty range, which we model
  as `[]`, and returns `[]` for a row whose cell in the range is empty);
* Python's `vr.get('values', [])[idx][0] if idx < len(...) else d`
  is partial: indexing `[0]` into an empty row raises, and every ledger
  operation wraps its body in `try/except` returning a failure tuple.
  We model the raising expressions in the `Except Unit` monad and the
  surrounding `try/except` as a `match` on the result;
* mutations issued to the store (cell clears, sheet duplication, rename,
  hide) are recorded as an emitted list of operations.
-/

set_option maxRecDepth 8192

namespace Bot

/-- A fetched value range: one entry per returned row. -/
abbrev ValueRange := List (List String)

/-- `cellE v idx d` models the Python expression
`v[idx][0] if idx < len(v) else d` over a fetched range: out-of-range
rows give the default `d`, an in-range empty row raises (`.error`). -/
def cellE (v : ValueRange) (idx : Nat) (d : String) : Except Unit String :=
  match v[idx]? with
  | some (c :: _) => .ok c
  | some [] => .error ()
  | none => .ok d

/-- Total version of `cellE`, meaningful on well-formed ranges (the value
chosen for an in-range empty row is irrelevant under `WellFormed`). -/
def cellD (v : ValueRange) (idx : Nat) (d : String) : String :=
  match v[idx]? with
  | some (c :: _) => c
  | some [] => ""
  | none => d

/-- A fetched range is well formed when every returned row carries a value
(this is how the API answers a single-column range whose occupied cells
are contiguous from the top). -/
def WellFormed (v : ValueRange) : Prop :=
  ∀ row ∈ v, row ≠ []

instance (v : ValueRange) : Decidable (WellFormed v) :=
  inferInstanceAs (Decidable (∀ row ∈ v, row ≠ []))

/-- A cell-clear issued to the store: tracked column letter and 1-based row. -/
abbrev ClearCell := String × Nat

/-- The snapshot of one removed record: (creator, link, price) as captured
from columns C, E, G before the clears. -/
abbrev Snapshot := String × String × String

/-- Result of `remove_recent_from_sheets`: the Python return tuple
`(success, removed_records)` together with the list of cell clears the
call issued to the store. -/
abbrev RemoveResult := Bool × List Snapshot × List ClearCell

/-- Embedding of `remove_recent_from_sheets(count)` (bot.py lines 100-128).
`vC, vE, vG` are the fetched `Logs!C:C`, `Logs!E:E`, `Logs!G:G` ranges. -/
def remove_recent_from_sheets (count : Int) (vC vE vG : ValueRange) :
    RemoveResult :=
  let maxRows := max (max vC.length vE.length) vG.length
  if maxRows ≤ 1 then
    (false, [], [])
  else
    let n := (min count ((maxRows : Int) - 1)).toNat
    match (List.range n).mapM (fun i => do
        let a ← cellE vC (maxRows - 1 - i) ""
        let b ← cellE vE (maxRows - 1 - i) ""
        let c ← cellE vG (maxRows - 1 - i) ""
        pure (a, b, c)) with
    | .error _ => (false, [], [])
    | .ok recs =>
      (true, recs.reverse,
        ((List.range n).map fun i =>
          [("C", maxRows - i), ("E", maxRows - i), ("G", maxRows - i)]).flatten)

/-- The maximum observed length of the three tracked columns. -/
def maxRows3 (vC vE vG : ValueRange) : Nat :=
  max (max vC.length vE.length) vG.length

/-- Number of rows the operation removes once `maxRows ≥ 2`. -/
def rowsToRemove (count : Int) (maxRows : Nat) : Nat :=
  (min count ((maxRows : Int) - 1)).toNat

/-- The (creator, link, price) snapshot captured at row index `idx` of
the three tracked ranges (total form, for well-formed ranges). -/
def snap3 (vC vE vG : ValueRange) (idx : Nat) : Snapshot :=
  (cellD vC idx "", cellD vE idx "", cellD vG idx "")

/-! ## Month names

`datetime.strftime("%b")`/`("%B")` month tables (C locale), and
`datetime.strptime(s, "%b")` month-abbreviation parsing, which Python
matches case-insensitively; the code always feeds it an upper-cased
token, so the table below is keyed on upper-case abbreviations. -/

/-- `strftime("%b")` for month number 1-12. -/
def monthAbbr : Nat → String
  | 1 => "Jan" | 2 => "Feb" | 3 => "Mar" | 4 => "Apr"
  | 5 => "May" | 6 => "Jun" | 7 => "Jul" | 8 => "Aug"
  | 9 => "Sep" | 10 => "Oct" | 11 => "Nov" | 12 => "Dec"
  | _ => ""

/-- `strftime("%B")` for month number 1-12. -/
def monthFull : Nat → String
  | 1 => "January" | 2 => "February" | 3 => "March" | 4 => "April"
  | 5 => "May" | 6 => "June" | 7 => "July" | 8 => "August"
  | 9 => "September" | 10 => "October" | 11 => "November" | 12 => "December"
  | _ => ""

/-- `strptime(ms, "%b").strftime("%B")` on an upper-cased token:
`none` models the `ValueError` raised for an unrecognised token. -/
def monthAbbrToFull : String → Option String
  | "JAN" => some "January" | "FEB" => some "February" | "MAR" => some "March"
  | "APR" => some "April" | "MAY" => some "May" | "JUN" => some "June"
  | "JUL" => some "July" | "AUG" => some "August" | "SEP" => some "September"
  | "OCT" => some "October" | "NOV" => some "November" | "DEC" => some "December"
  | _ => none

/-- Python `.upper()` on the ASCII tokens involved here. -/
def upperAscii (s : String) : String :=
  ⟨s.toList.map Char.toUpper⟩

/-! ## Period summaries -/

/-- The store's answer to reads of a period sheet named by an upper-cased
month abbreviation: `none` when the sheet does not exist (the ranges
`MS!Q15` … fail to resolve and the API call raises); otherwise the
contents of the three fixed summary cells `Q15`, `Q18`, `Q21`, each
`none` when the cell is empty (the API omits `values` for it). -/
abbrev MonthStore := String → Option (Option String × Option String × Option String)

/-- The five-part return tuple of `get_month_summary` and `end_month`. -/
abbrev SummaryResult := Bool × String × String × String × String

/-- Embedding of `get_month_summary(month_abbr)` (bot.py lines 130-144). -/
def get_month_summary (store : MonthStore) (month_abbr : String) : SummaryResult :=
  let month_short := upperAscii month_abbr
  match monthAbbrToFull month_short with
  | none => (false, "", "$0.00", "$0.00", "0")
  | some month_full =>
    match store month_short with
    | none => (false, "", "$0.00", "$0.00", "0")
    | some (q15, q18, q21) =>
      (true, month_full, q15.getD "$0.00", q18.getD "$0.00", q21.getD "0")

/-! ## Listing the log -/

/-- One displayed log row: (creator, link, price, paid). -/
abbrev LogRow := String × String × String × String

/-- The four defaulted column reads at row index `i` of the fetched
`Logs!C7:C`, `E7:E`, `G7:G`, `J7:J` ranges (raising form). -/
def logRowE (vC vE vG vJ : ValueRange) (i : Nat) : Except Unit LogRow := do
  let a ← cellE vC i "N/A"
  let b ← cellE vE i "N/A"
  let c ← cellE vG i "N/A"
  let d ← cellE vJ i "No"
  pure (a, b, c, d)

/-- Total version of `logRowE` for well-formed ranges. -/
def logRowD (vC vE vG vJ : ValueRange) (i : Nat) : LogRow :=
  (cellD vC i "N/A", cellD vE i "N/A", cellD vG i "N/A", cellD vJ i "No")

/-- The Python presence test `not all(x in ["N/A", "No", "", "FALSE"] for x in row)`
negated: `true` when every one of the four values is a sentinel. -/
def allSentinel (r : LogRow) : Bool :=
  [r.1, r.2.1, r.2.2.1, r.2.2.2].all fun x => ["N/A", "No", "", "FALSE"].contains x

/-- Embedding of `get_logs()` (bot.py lines 146-170). -/
def get_logs (vC vE vG vJ : ValueRange) : Bool × List LogRow :=
  let maxRows := max (max (max vC.length vE.length) vG.length) vJ.length
  match (List.range maxRows).mapM (logRowE vC vE vG vJ) with
  | .error _ => (false, [])
  | .ok rows => (true, rows.filter fun r => !(allSentinel r))

/-- The maximum observed length of the four fetched log ranges. -/
def maxRows4 (vC vE vG vJ : ValueRange) : Nat :=
  max (max (max vC.length vE.length) vG.length) vJ.length

/-! ## Creator filter cache -/

/-- The list-comprehension body of `get_log_filters`:
`[row[0] for row in values if row and row[0]]`. -/
def cleanFilters (values : ValueRange) : List String :=
  values.filterMap fun row =>
    match row with
    | [] => none
    | v :: _ => if v = "" then none else some v

/-- Embedding of one call to `get_log_filters()` (bot.py lines 172-185).
The module-global `log_filters_cache` is passed and returned explicitly
(`none` models Python's `None`); `fetch` is the outcome the store gives
this call's `values().get` request. Returns (returned list, new cache
state, whether this call invoked the store). -/
def get_log_filters (cache : Option (List String))
    (fetch : Except Unit ValueRange) : List String × Option (List String) × Bool :=
  match cache with
  | some c => (c, some c, false)
  | none =>
    match fetch with
    | .error _ => ([], none, true)
    | .ok values =>
      let l := cleanFilters values
      (l, some l, true)

/-- A sequence of `get_log_filters` calls, threading the cache: returns
the per-call results, the final cache, and how many calls hit the store. -/
def runFilterCalls (cache : Option (List String)) :
    List (Except Unit ValueRange) → List (List String) × Option (List String) × Nat
  | [] => ([], cache, 0)
  | f :: fs =>
    let r := get_log_filters cache f
    let rest := runFilterCalls r.2.1 fs
    (r.1 :: rest.1, rest.2.1, rest.2.2 + (if r.2.2 then 1 else 0))

/-! ## Short-link resolution -/

/-- Python `link.split('/')[-1]`: the suffix after the last `'/'`
(the whole string when no `'/'` occurs, empty for a trailing `'/'`). -/
def shortLink (s : String) : String :=
  ⟨s.toList.foldl (fun acc c => if c = '/' then [] else acc ++ [c]) []⟩

/-- The three possible replies of the `/getlink` handler. -/
inductive LinkReply where
  | noRecent : LinkReply
  | found : String → LinkReply
  | notFound : String → LinkReply
deriving DecidableEq, Repr

/-- Embedding of `getlink_slash` (bot.py lines 389-405): `recentLogs` is
the module-global `recent_logs` (initially `[]`, replaced by each
successful `/logs` display). -/
def getlink_slash (recentLogs : List LogRow) (link : String) : LinkReply :=
  match recentLogs with
  | [] => .noRecent
  | _ =>
    match recentLogs.find? (fun log => shortLink log.2.1 = link) with
    | some log => .found log.2.1
    | none => .notFound link

/-! ## Python `float(...)` string parsing

`add_slash` validates the price with `float(price.replace('$', ''))`:
the write is attempted iff that call does not raise `ValueError`.
`pyFloatAccepts` models the strings CPython's `float` accepts:
surrounding whitespace, an optional sign, then `inf`/`infinity`/`nan`
(case-insensitive) or a decimal numeral with optional fraction and
exponent, underscores allowed singly between digits. -/

/-- ASCII decimal digit test. -/
def isDigitCh (c : Char) : Bool := '0' ≤ c ∧ c ≤ '9'

/-- The whitespace `float` strips from both ends. -/
def isPyWs (c : Char) : Bool :=
  c = ' ' ∨ c = '\t' ∨ c = '\n' ∨ c = '\r' ∨ c = '\x0b' ∨ c = '\x0c'

/-- A maximal run of digits/underscores is a valid `digitpart` iff it is
nonempty, does not start or end with `'_'`, and has no `"__"`. -/
def validDigitRun (run : List Char) : Bool :=
  run ≠ [] ∧ run.head? ≠ some '_' ∧ run.getLast? ≠ some '_' ∧
    ¬ (run.zip run.tail).any fun p => p.1 = '_' ∧ p.2 = '_'

/-- Consume a leading `digitpart`; `some rest` on success. -/
def parseDigitPart (l : List Char) : Option (List Char) :=
  let p := l.span fun c => isDigitCh c ∨ c = '_'
  if validDigitRun p.1 then some p.2 else none

/-- Consume an optional exponent (`e`/`E`, optional sign, digitpart). -/
def parseExpPart (l : List Char) : Option (List Char) :=
  match l with
  | [] => some []
  | c :: r =>
    if c = 'e' ∨ c = 'E' then
      let r2 := match r with
                | s :: r3 => if s = '+' ∨ s = '-' then r3 else s :: r3
                | [] => []
      parseDigitPart r2
    else some (c :: r)

/-- Accept a full unsigned numeral: `digitpart [. [digitpart]] [exp]`
or `. digitpart [exp]`, consuming the whole input. -/
def pyNumberAccepts (l : List Char) : Bool :=
  let tail : Option (List Char) :=
    match parseDigitPart l with
    | some r =>
      match r with
      | '.' :: r2 =>
        (match parseDigitPart r2 with
         | some r3 => parseExpPart r3
         | none => parseExpPart r2)
      | _ => parseExpPart r
    | none =>
      match l with
      | '.' :: r2 =>
        (match parseDigitPart r2 with
         | some r3 => parseExpPart r3
         | none => none)
      | _ => none
  tail = some []

/-- Does CPython `float(s)` succeed? -/
def pyFloatAccepts (s : String) : Bool :=
  let t := ((s.toList.dropWhile isPyWs).reverse.dropWhile isPyWs).reverse
  let body := match t with
              | c :: r => if c = '+' ∨ c = '-' then r else c :: r
              | [] => []
  let low := body.map Char.toLower
  if low = "inf".toList ∨ low = "infinity".toList ∨ low = "nan".toList then true
  else pyNumberAccepts body

/-! ## Append record -/

/-- Python `price.replace('$', '')`. -/
def stripDollars (s : String) : String :=
  ⟨s.toList.filter fun c => c ≠ '$'⟩

/-- A row write issued to the store: target range and the row of values. -/
abbrev WriteCall := String × List String

/-- Embedding of `add_to_google_sheets` (bot.py lines 84-98): counts the
rows of the fetched `Logs!C:C` and writes the new record at the next row.
The store itself is modelled as answering; the issued write is returned. -/
def add_to_google_sheets (creator_name link price : String) (colC : ValueRange) :
    Bool × List WriteCall :=
  let max_rows := colC.length
  let next_row := max_rows + 1
  (true,
   [("Logs!A" ++ toString next_row ++ ":G" ++ toString next_row,
     ["", "", creator_name, "", link, "", price])])

/-- The `/add` handler's possible replies. -/
inductive AddReply where
  | recordAdded : String → String → String → AddReply
  | failedAdd : AddReply
  | invalidPrice : AddReply
deriving DecidableEq, Repr

/-- Embedding of `add_slash` (bot.py lines 301-317): the price is
validated with `float(price.replace('$', ''))` before any store call;
on `ValueError` the reply is "Invalid price format." and nothing is
written. -/
def add_slash (creator_name link price : String) (colC : ValueRange) :
    AddReply × List WriteCall :=
  if pyFloatAccepts (stripDollars price) then
    match add_to_google_sheets creator_name link price colC with
    | (true, ws) => (.recordAdded creator_name link price, ws)
    | (false, ws) => (.failedAdd, ws)
  else
    (.invalidPrice, [])

/-- Modelled from the spec words "price (string parsed as a non-negative
decimal)": after stripping the conventional dollar signs, an unsigned
decimal numeral (digits with at most one decimal point). -/
def specNonNegDecimal (s : String) : Bool :=
  let l := (stripDollars s).toList
  l.any isDigitCh ∧ (l.all fun c => isDigitCh c ∨ c = '.') ∧ l.count '.' ≤ 1

/-! ## Calendar model for the roll-over

`end_month` computes the next period as
`(datetime.now().replace(day=1) + timedelta(days=32))` and formats it
with `%b`/`%B`; `timedelta` arithmetic is exact civil-calendar
day stepping. -/

/-- A civil date. -/
structure Date where
  year : Nat
  month : Nat
  day : Nat
deriving DecidableEq, Repr

/-- Gregorian leap-year rule. -/
def isLeapYear (y : Nat) : Bool :=
  (y % 4 = 0 ∧ y % 100 ≠ 0) ∨ y % 400 = 0

/-- Days in a month (month numbered 1-12). -/
def daysInMonth (y m : Nat) : Nat :=
  if m = 2 then (if isLeapYear y then 29 else 28)
  else if m = 4 ∨ m = 6 ∨ m = 9 ∨ m = 11 then 30
  else 31

/-- Step one civil day. -/
def nextDay (d : Date) : Date :=
  if d.day < daysInMonth d.year d.month then ⟨d.year, d.month, d.day + 1⟩
  else if d.month < 12 then ⟨d.year, d.month + 1, 1⟩
  else ⟨d.year + 1, 1, 1⟩

/-- `timedelta(days=n)` addition. -/
def addDays : Nat → Date → Date
  | 0, d => d
  | n + 1, d => addDays n (nextDay d)

/-- `(now.replace(day=1) + timedelta(days=32)).strftime("%b").upper()`. -/
def nextMonthShort (now : Date) : String :=
  upperAscii (monthAbbr (addDays 32 ⟨now.year, now.month, 1⟩).month)

/-- `(now.replace(day=1) + timedelta(days=32)).strftime("%B")`. -/
def nextMonthFull (now : Date) : String :=
  monthFull (addDays 32 ⟨now.year, now.month, 1⟩).month

/-- The calendar month immediately following month `m`. -/
def succMonth (m : Nat) : Nat :=
  if m = 12 then 1 else m + 1

/-! ## Roll over period (end month) -/

/-- A sheet (tab) of the spreadsheet, as relevant to `end_month`. -/
structure Sheet where
  sheetId : Nat
  title : String
  hidden : Bool
deriving DecidableEq, Repr

/-- A mutation issued to the spreadsheet by `end_month`. -/
inductive SheetOp where
  | duplicateSheet : Nat → Nat → String → SheetOp
  | copyValues : String → String → SheetOp
  | setHidden : Nat → Bool → SheetOp
  | renameSheet : Nat → String → SheetOp
  | clearRange : String → SheetOp
deriving DecidableEq, Repr

/-- The sheet id the code resolves for the current month title
(`0` standing in for Python's `None` when absent; the code's
`if not current_sheet_id` treats both as missing). -/
def currentSheetId (now : Date) (sheets : List Sheet) : Nat :=
  ((sheets.find? fun s => s.title = upperAscii (monthAbbr now.month)).map Sheet.sheetId).getD 0

/-- Embedding of `end_month()` (bot.py lines 187-227). Inputs: the
wall-clock date, the spreadsheet's sheet list, and the month-sheet
store (shared with `get_month_summary`). Returns the Python result
tuple and the mutations successfully issued to the store. A duplicate
of an already-existing archive title is rejected by the API (the
`batchUpdate` raises), modelled by the `any` guard. -/
def end_month (now : Date) (sheets : List Sheet) (store : MonthStore) :
    SummaryResult × List SheetOp :=
  let current_month_short := upperAscii (monthAbbr now.month)
  let current_month_full := monthFull now.month
  let next_month_short := nextMonthShort now
  match sheets.find? (fun s => s.title = current_month_short) with
  | none => ((false, "", "$0.00", "$0.00", "0"), [])
  | some cur =>
    if cur.sheetId = 0 then ((false, "", "$0.00", "$0.00", "0"), [])
    else
      match get_month_summary store current_month_short with
      | (false, _, _, _, _) => ((false, "", "$0.00", "$0.00", "0"), [])
      | (true, _, earned, pending, work_done) =>
        match store current_month_short with
        | none => ((false, "", "$0.00", "$0.00", "0"), [])
        | some (q15c, _, _) =>
          let q15_value := q15c.getD ""
          let archived_sheet_name := current_month_full ++ " (" ++ q15_value ++ ")"
          if sheets.any (fun s => s.title = archived_sheet_name) then
            ((false, "", "$0.00", "$0.00", "0"), [])
          else
            let newId := (sheets.map Sheet.sheetId).foldr max 0 + 1
            let sheets2 := sheets.take 1 ++ ⟨newId, archived_sheet_name, cur.hidden⟩ :: sheets.drop 1
            match sheets2.find? (fun s => s.title = archived_sheet_name) with
            | none =>
              ((false, "", "$0.00", "$0.00", "0"),
               [.duplicateSheet cur.sheetId 1 archived_sheet_name])
            | some arch =>
              ((true, current_month_full, earned, pending, work_done),
               [.duplicateSheet cur.sheetId 1 archived_sheet_name,
                .copyValues (current_month_short ++ "!A1:Z1000")
                  (archived_sheet_name ++ "!A1:Z1000"),
                .setHidden arch.sheetId true,
                .renameSheet cur.sheetId next_month_short,
                .clearRange "Logs!A7:G"])

/-- A sample month store: an `OCT` period sheet with all summary cells. -/
def octoberStore : MonthStore :=
  fun s => if s = "OCT" then some (some "$120.00", some "$5.00", some "7") else none

/-! ## Concrete evaluation checks of the embedding -/

example :
    remove_recent_from_sheets 2 [["h"], ["a"], ["b"]] [["h"], ["u"], ["v"]] [["h"], ["1"], ["2"]] =
      (true, [("a", "u", "1"), ("b", "v", "2")],
        [("C", 3), ("E", 3), ("G", 3), ("C", 2), ("E", 2), ("G", 2)]) := by
  decide

example : remove_recent_from_sheets 1 [] [] [] = (false, [], []) := by decide

example : remove_recent_from_sheets 5 [["h"]] [["h"]] [] = (false, [], []) := by decide

example :
    get_logs [["ann"], ["N/A"], ["bob"]] [["u1"], [""], ["u3"]] [["3"], ["FALSE"], ["4"]] [["Yes"]] =
      (true, [("ann", "u1", "3", "Yes"), ("bob", "u3", "4", "No")]) := by
  decide

example :
    runFilterCalls none [.ok [["ann"], [], [""]], .ok [["zoe"]], .error ()] =
      ([["ann"], ["ann"], ["ann"]], some ["ann"], 1) := by
  decide

example : getlink_slash [] "x.png" = .noRecent := by decide

example :
    getlink_slash [("a", "https://i.ibb.co/q/x.png", "3", "No")] "x.png" =
      .found "https://i.ibb.co/q/x.png" := by
  decide

example :
    getlink_slash [("a", "https://i.ibb.co/q/x.png", "3", "No")] "y.png" =
      .notFound "y.png" := by
  decide

example : pyFloatAccepts "10.50" = true := by decide
example : pyFloatAccepts "-5" = true := by decide
example : pyFloatAccepts " +1_0.2_5e-1_0 " = true := by decide
example : pyFloatAccepts "-inf" = true := by decide
example : pyFloatAccepts "NaN" = true := by decide
example : pyFloatAccepts "abc" = false := by decide
example : pyFloatAccepts "" = false := by decide
example : pyFloatAccepts "1__0" = false := by decide
example : pyFloatAccepts "_1" = false := by decide
example : pyFloatAccepts "1." = true := by decide
example : pyFloatAccepts ".5e3" = true := by decide
example : pyFloatAccepts "." = false := by decide
example : pyFloatAccepts "- 5" = false := by decide
example : pyFloatAccepts "1.e3" = true := by decide

example : specNonNegDecimal "10.50" = true := by decide
example : specNonNegDecimal "$4" = true := by decide
example : specNonNegDecimal "-5" = false := by decide
example : add_slash "ann" "url" "abc" [] = (.invalidPrice, []) := by decide
example :
    add_slash "ann" "url" "10.50" [["h"]] =
      (.recordAdded "ann" "url" "10.50",
       [("Logs!A2:G2", ["", "", "ann", "", "url", "", "10.50"])]) := by
  decide

example : nextMonthShort ⟨2026, 10, 12⟩ = "NOV" := by decide
example : nextMonthShort ⟨2026, 12, 31⟩ = "JAN" := by decide
example : nextMonthShort ⟨2024, 2, 5⟩ = "MAR" := by decide
example : nextMonthShort ⟨2026, 1, 31⟩ = "FEB" := by decide

example :
    end_month ⟨2026, 10, 12⟩ [⟨1, "Logs", false⟩, ⟨2, "OCT", false⟩]
      (fun s => if s = "OCT" then some (some "$120.00", some "$5.00", some "7") else none) =
      ((true, "October", "$120.00", "$5.00", "7"),
       [.duplicateSheet 2 1 "October ($120.00)",
        .copyValues "OCT!A1:Z1000" "October ($120.00)!A1:Z1000",
        .setHidden 3 true,
        .renameSheet 2 "NOV",
        .clearRange "Logs!A7:G"]) := by
  decide

/-! ## General helper lemmas -/

theorem cellE_eq_ok (v : ValueRange) (hv : WellFormed v) (idx : Nat) (d : String) :
    cellE v idx d = .ok (cellD v idx d) := by
  unfold cellE cellD
  match h : v[idx]? with
  | some (c :: _) => rfl
  | some [] =>
    have h1 : ∃ hlt : idx < v.length, v[idx] = [] := by
      simpa [List.getElem?_eq_some] using h
    obtain ⟨hlt, he⟩ := h1
    exact absurd rfl (hv [] (he ▸ List.getElem_mem hlt))
  | none => rfl

theorem mapM_ok {α β : Type} (l : List α) (f : α → Except Unit β) (g : α → β)
    (h : ∀ a ∈ l, f a = .ok (g a)) : l.mapM f = .ok (l.map g) := by
  induction l with
  | nil => rfl
  | cons a t ih =>
    rw [List.mapM_cons, h a (List.mem_cons_self a t),
      ih fun x hx => h x (List.mem_cons_of_mem a hx)]
    rfl

theorem getD_map_range {β : Type} (n i : Nat) (f : Nat → β) (d : β) (h : i < n) :
    (((List.range n).map f).getD i d) = f i := by
  rw [List.getD_eq_getElem?_getD, List.getElem?_map, List.getElem?_range h]
  rfl

theorem cellD_of_len_le (v : ValueRange) (idx : Nat) (d : String)
    (h : v.length ≤ idx) : cellD v idx d = d := by
  unfold cellD
  rw [List.getElem?_eq_none h]

/-! ## Claim C1 -/

/-- Counterexample to C1 as stated: on the empty log (all three tracked
columns empty, so `maxRows = 0 ≤ 1`), `remove_recent_from_sheets`
returns `False` as its success flag, not success. -/
theorem removeRecent_empty_log_cex :
    (remove_recent_from_sheets 1 [] [] []).1 = false := by decide

/-- C1 (amended): for every log state with `maxRows ≤ 1` (empty or
header-only log), remove-recent with any count is a no-op — it issues no
clears — and returns the failure flag `false` together with an empty
removed-record list. -/
theorem removeRecent_headerOnly_noop (count : Int) (vC vE vG : ValueRange)
    (h : maxRows3 vC vE vG ≤ 1) :
    remove_recent_from_sheets count vC vE vG = (false, [], []) := by
  unfold maxRows3 at h
  unfold remove_recent_from_sheets
  simp only [h, if_true]

/-- Witness for `removeRecent_headerOnly_noop` at a header-only log. -/
theorem removeRecent_headerOnly_noop_witness :
    remove_recent_from_sheets 5 [["header"]] [["header"]] [] = (false, [], []) :=
  removeRecent_headerOnly_noop 5 [["header"]] [["header"]] [] (by decide)

/-! ## Claim C2 -/

/-- Counterexample to C2 as stated: for a month token whose period sheet
exists but whose three summary cells are all missing, `get_month_summary`
returns a *success* tuple with the per-cell defaults, not the failure
tuple the claim requires. -/
theorem summary_missing_cell_cex :
    get_month_summary
        (fun s => if s = "JAN" then some (none, none, none) else none) "jan" =
      (true, "January", "$0.00", "$0.00", "0") ∧
    get_month_summary
        (fun s => if s = "JAN" then some (none, none, none) else none) "jan" ≠
      (false, "", "$0.00", "$0.00", "0") := by
  constructor <;> decide

/-- C2 (amended): a month token that does not name an existing period
sheet — because the token is not a month abbreviation or because the
sheet is absent from the store — yields the failure tuple
`(false, "", "$0.00", "$0.00", "0")`, never a thrown error; on an
existing sheet the result is a success tuple in which each *missing*
summary cell — `Q15`, `Q18` or `Q21`, in any combination — is defaulted
to `"$0.00"`/`"$0.00"`/`"0"` while present cells pass through. -/
theorem summary_missing_sheet_fails (store : MonthStore) (m : String) :
    ((monthAbbrToFull (upperAscii m) = none ∨ store (upperAscii m) = none) →
      get_month_summary store m = (false, "", "$0.00", "$0.00", "0")) ∧
    (∀ mf q15 q18 q21, monthAbbrToFull (upperAscii m) = some mf →
      store (upperAscii m) = some (q15, q18, q21) →
      get_month_summary store m =
        (true, mf, q15.getD "$0.00", q18.getD "$0.00", q21.getD "0")) := by
  constructor
  · rintro (h | h)
    · simp [get_month_summary, h]
    · cases hm : monthAbbrToFull (upperAscii m) <;>
        simp [get_month_summary, h, hm]
  · intro mf q15 q18 q21 h1 h2
    simp [get_month_summary, h1, h2]

/-- Witness for `summary_missing_sheet_fails`: an unknown token fails;
a sheet whose `Q15` alone is missing succeeds with only that cell
defaulted, the present cells passing through. -/
theorem summary_missing_sheet_fails_witness :
    get_month_summary (fun _ => none) "foo" = (false, "", "$0.00", "$0.00", "0") ∧
    get_month_summary
        (fun s => if s = "FEB" then some (none, some "$7.00", some "3") else none)
        "Feb" = (true, "February", "$0.00", "$7.00", "3") :=
  ⟨(summary_missing_sheet_fails (fun _ => none) "foo").1 (Or.inl (by decide)),
   (summary_missing_sheet_fails
      (fun s => if s = "FEB" then some (none, some "$7.00", some "3") else none) "Feb").2
     "February" none (some "$7.00") (some "3") (by decide) (by decide)⟩

/-! ## Claim C4 -/

/-- Counterexample to C4 as stated: `"-5"` does not parse as a
*non-negative* decimal, yet `add_slash` accepts it (Python
`float("-5")` succeeds) and issues the store write. -/
theorem add_negative_price_cex :
    specNonNegDecimal "-5" = false ∧
    add_slash "ann" "url" "-5" [] =
      (.recordAdded "ann" "url" "-5",
       [("Logs!A1:G1", ["", "", "ann", "", "url", "", "-5"])]) := by
  constructor <;> decide

/-- C4 (amended): append-record rejects the price with the invalid-price
reply and performs no store-write call exactly when Python
`float(price.replace('$', ''))` raises; when that parse succeeds —
including for negative prices — the row write is attempted (at the next
row after the fetched primary column, assuming the store answers the
row-count read). -/
theorem add_price_gate (creator link price : String) (colC : ValueRange) :
    (pyFloatAccepts (stripDollars price) = false →
      add_slash creator link price colC = (.invalidPrice, [])) ∧
    (pyFloatAccepts (stripDollars price) = true →
      add_slash creator link price colC =
        (.recordAdded creator link price,
         [("Logs!A" ++ toString (colC.length + 1) ++ ":G" ++ toString (colC.length + 1),
           ["", "", creator, "", link, "", price])])) := by
  constructor <;> intro h <;> simp [add_slash, add_to_google_sheets, h]

/-- Witness for `add_price_gate`: a malformed price is rejected with no
write; a well-formed price is written. -/
theorem add_price_gate_witness :
    add_slash "ann" "url" "abc" [] = (.invalidPrice, []) ∧
    add_slash "ann" "url" "10.50" [["h"]] =
      (.recordAdded "ann" "url" "10.50",
       [("Logs!A" ++ toString ([["h"]].length + 1) ++ ":G" ++ toString ([["h"]].length + 1),
         ["", "", "ann", "", "url", "", "10.50"])]) :=
  ⟨(add_price_gate "ann" "url" "abc" []).1 (by decide),
   (add_price_gate "ann" "url" "10.50" [["h"]]).2 (by decide)⟩

/-! ## Claims C5 and C9: remove-recent on a populated log -/

theorem removeSnap_mapM (vC vE vG : ValueRange) (hC : WellFormed vC)
    (hE : WellFormed vE) (hG : WellFormed vG) (n k : Nat) :
    (List.range n).mapM (fun i => do
        let a ← cellE vC (k - i) ""
        let b ← cellE vE (k - i) ""
        let c ← cellE vG (k - i) ""
        pure ((a, b, c) : Snapshot)) =
      .ok ((List.range n).map fun i => snap3 vC vE vG (k - i)) := by
  apply mapM_ok
  intro i _
  rw [cellE_eq_ok vC hC, cellE_eq_ok vE hE, cellE_eq_ok vG hG]
  rfl

/-- Full characterization of `remove_recent_from_sheets` on a populated
well-formed log: success, the bottom-up snapshots returned reversed, and
the bottom-up clears of the three tracked columns. -/
theorem removeRecent_eq (count : Int) (vC vE vG : ValueRange)
    (hC : WellFormed vC) (hE : WellFormed vE) (hG : WellFormed vG)
    (hm : 2 ≤ maxRows3 vC vE vG) :
    remove_recent_from_sheets count vC vE vG =
      (true,
       ((List.range (rowsToRemove count (maxRows3 vC vE vG))).map fun i =>
          snap3 vC vE vG (maxRows3 vC vE vG - 1 - i)).reverse,
       ((List.range (rowsToRemove count (maxRows3 vC vE vG))).map fun i =>
          [("C", maxRows3 vC vE vG - i), ("E", maxRows3 vC vE vG - i),
           ("G", maxRows3 vC vE vG - i)]).flatten) := by
  have hm' : ¬ (max (max vC.length vE.length) vG.length ≤ 1) := by
    unfold maxRows3 at hm
    omega
  unfold remove_recent_from_sheets maxRows3 rowsToRemove
  simp only [if_neg hm']
  rw [removeSnap_mapM vC vE vG hC hE hG]

/-- C5: for every count `N ≥ 1` and every well-formed log with
`maxRows ≥ 2`, remove-recent succeeds, removes exactly
`min(N, maxRows - 1)` rows from the bottom upward (the emitted clears
walk rows `maxRows, maxRows - 1, …` over columns C, E, G), and the
returned list has that length and is ordered oldest-removed-first —
the reverse of the bottom-up capture order. -/
theorem removeRecent_removes_min (count : Int) (vC vE vG : ValueRange)
    (hc : 1 ≤ count) (hC : WellFormed vC) (hE : WellFormed vE) (hG : WellFormed vG)
    (hm : 2 ≤ maxRows3 vC vE vG) :
    (remove_recent_from_sheets count vC vE vG).1 = true ∧
    (remove_recent_from_sheets count vC vE vG).2.1.length =
      min count.toNat (maxRows3 vC vE vG - 1) ∧
    (remove_recent_from_sheets count vC vE vG).2.1 =
      ((List.range (min count.toNat (maxRows3 vC vE vG - 1))).map fun i =>
        snap3 vC vE vG (maxRows3 vC vE vG - 1 - i)).reverse ∧
    (remove_recent_from_sheets count vC vE vG).2.2 =
      ((List.range (min count.toNat (maxRows3 vC vE vG - 1))).map fun i =>
        [("C", maxRows3 vC vE vG - i), ("E", maxRows3 vC vE vG - i),
         ("G", maxRows3 vC vE vG - i)]).flatten := by
  have hn : rowsToRemove count (maxRows3 vC vE vG) =
      min count.toNat (maxRows3 vC vE vG - 1) := by
    unfold rowsToRemove
    omega
  rw [removeRecent_eq count vC vE vG hC hE hG hm, hn]
  simp

/-- Witness for `removeRecent_removes_min` on a three-row log (header
plus two records), removing with count 5 clamped to 2. -/
theorem removeRecent_removes_min_witness :
    (remove_recent_from_sheets 5 [["h"], ["a"], ["b"]] [["h"], ["u"], ["v"]]
      [["h"], ["1"], ["2"]]).1 = true ∧
    (remove_recent_from_sheets 5 [["h"], ["a"], ["b"]] [["h"], ["u"], ["v"]]
      [["h"], ["1"], ["2"]]).2.1.length = 2 :=
  ⟨(removeRecent_removes_min 5 [["h"], ["a"], ["b"]] [["h"], ["u"], ["v"]]
      [["h"], ["1"], ["2"]] (by decide) (by decide) (by decide) (by decide) (by decide)).1,
   by
    have h := (removeRecent_removes_min 5 [["h"], ["a"], ["b"]] [["h"], ["u"], ["v"]]
      [["h"], ["1"], ["2"]] (by decide) (by decide) (by decide) (by decide) (by decide)).2.1
    simpa [maxRows3] using h⟩

/-- C9: on a well-formed populated log, a removed row whose index lies
beyond one of the three fetched ranges (the range has no value at that
row) gets the empty string for that field in its returned snapshot, and
the operation still succeeds. `…2.1.reverse.getD i` is the `i`-th
snapshot in removal order (most recent first). -/
theorem removeRecent_missing_value_empty (count : Int) (vC vE vG : ValueRange)
    (_hc : 1 ≤ count) (hC : WellFormed vC) (hE : WellFormed vE) (hG : WellFormed vG)
    (hm : 2 ≤ maxRows3 vC vE vG) :
    (remove_recent_from_sheets count vC vE vG).1 = true ∧
    ∀ i < rowsToRemove count (maxRows3 vC vE vG),
      (vC.length ≤ maxRows3 vC vE vG - 1 - i →
        ((remove_recent_from_sheets count vC vE vG).2.1.reverse.getD i ("", "", "")).1 = "") ∧
      (vE.length ≤ maxRows3 vC vE vG - 1 - i →
        ((remove_recent_from_sheets count vC vE vG).2.1.reverse.getD i ("", "", "")).2.1 = "") ∧
      (vG.length ≤ maxRows3 vC vE vG - 1 - i →
        ((remove_recent_from_sheets count vC vE vG).2.1.reverse.getD i ("", "", "")).2.2 = "") := by
  rw [removeRecent_eq count vC vE vG hC hE hG hm]
  refine ⟨rfl, ?_⟩
  intro i hi
  simp only [List.reverse_reverse]
  rw [getD_map_range _ _ _ _ hi]
  exact ⟨fun h => by simp [snap3, cellD_of_len_le _ _ _ h],
         fun h => by simp [snap3, cellD_of_len_le _ _ _ h],
         fun h => by simp [snap3, cellD_of_len_le _ _ _ h]⟩

/-- Witness for `removeRecent_missing_value_empty`: column C is one row
shorter than columns E and G, and the removed bottom row reports an
empty creator field while the call succeeds. -/
theorem removeRecent_missing_value_empty_witness :
    (remove_recent_from_sheets 1 [["h"]] [["h"], ["x"]] [["h"], ["y"]]).1 = true ∧
    ((remove_recent_from_sheets 1 [["h"]] [["h"], ["x"]]
      [["h"], ["y"]]).2.1.reverse.getD 0 ("", "", "")).1 = "" :=
  ⟨(removeRecent_missing_value_empty 1 [["h"]] [["h"], ["x"]] [["h"], ["y"]]
      (by decide) (by decide) (by decide) (by decide) (by decide)).1,
   ((removeRecent_missing_value_empty 1 [["h"]] [["h"], ["x"]] [["h"], ["y"]]
      (by decide) (by decide) (by decide) (by decide) (by decide)).2 0
      (by decide)).1 (by decide)⟩

/-! ## Claim C6: which rows the log listing includes -/

theorem logRowE_eq_ok (vC vE vG vJ : ValueRange) (hC : WellFormed vC)
    (hE : WellFormed vE) (hG : WellFormed vG) (hJ : WellFormed vJ) (i : Nat) :
    logRowE vC vE vG vJ i = .ok (logRowD vC vE vG vJ i) := by
  unfold logRowE logRowD
  rw [cellE_eq_ok vC hC, cellE_eq_ok vE hE, cellE_eq_ok vG hG, cellE_eq_ok vJ hJ]
  rfl

theorem get_logs_eq (vC vE vG vJ : ValueRange) (hC : WellFormed vC)
    (hE : WellFormed vE) (hG : WellFormed vG) (hJ : WellFormed vJ) :
    get_logs vC vE vG vJ =
      (true, ((List.range (maxRows4 vC vE vG vJ)).map (logRowD vC vE vG vJ)).filter
        fun r => !(allSentinel r)) := by
  simp only [get_logs, maxRows4]
  rw [mapM_ok _ _ (logRowD vC vE vG vJ) fun i _ => logRowE_eq_ok vC vE vG vJ hC hE hG hJ i]

/-- C6: on well-formed fetched ranges, `get_logs` succeeds, and for every
row index of the fetched extent, the row's defaulted four-column tuple is
included in the result iff not all four values lie in the sentinel set
`{"N/A", "No", "", "FALSE"}` — an all-sentinel row is excluded. -/
theorem get_logs_presence (vC vE vG vJ : ValueRange) (hC : WellFormed vC)
    (hE : WellFormed vE) (hG : WellFormed vG) (hJ : WellFormed vJ) :
    (get_logs vC vE vG vJ).1 = true ∧
    ∀ i < maxRows4 vC vE vG vJ,
      (logRowD vC vE vG vJ i ∈ (get_logs vC vE vG vJ).2 ↔
        allSentinel (logRowD vC vE vG vJ i) = false) := by
  rw [get_logs_eq vC vE vG vJ hC hE hG hJ]
  refine ⟨rfl, ?_⟩
  intro i hi
  have hmem : logRowD vC vE vG vJ i ∈
      (List.range (maxRows4 vC vE vG vJ)).map (logRowD vC vE vG vJ) :=
    List.mem_map_of_mem _ (List.mem_range.mpr hi)
  simp [List.mem_filter, hmem]

/-- Witness for `get_logs_presence`: a fetch with one real record, one
soft-deleted (all-sentinel) row between records, and a short paid
column; the sentinel row is excluded, the real rows are included. -/
theorem get_logs_presence_witness :
    (get_logs [["ann"], ["N/A"], ["bob"]] [["u1"], [""], ["u3"]]
      [["3"], ["FALSE"], ["4"]] [["Yes"]]).1 = true ∧
    (("ann", "u1", "3", "Yes") ∈
      (get_logs [["ann"], ["N/A"], ["bob"]] [["u1"], [""], ["u3"]]
        [["3"], ["FALSE"], ["4"]] [["Yes"]]).2 ↔
      allSentinel ("ann", "u1", "3", "Yes") = false) ∧
    (("N/A", "", "FALSE", "No") ∈
      (get_logs [["ann"], ["N/A"], ["bob"]] [["u1"], [""], ["u3"]]
        [["3"], ["FALSE"], ["4"]] [["Yes"]]).2 ↔
      allSentinel ("N/A", "", "FALSE", "No") = false) :=
  ⟨(get_logs_presence [["ann"], ["N/A"], ["bob"]] [["u1"], [""], ["u3"]]
      [["3"], ["FALSE"], ["4"]] [["Yes"]] (by decide) (by decide) (by decide) (by decide)).1,
   (get_logs_presence [["ann"], ["N/A"], ["bob"]] [["u1"], [""], ["u3"]]
      [["3"], ["FALSE"], ["4"]] [["Yes"]] (by decide) (by decide) (by decide) (by decide)).2
     0 (by decide),
   (get_logs_presence [["ann"], ["N/A"], ["bob"]] [["u1"], [""], ["u3"]]
      [["3"], ["FALSE"], ["4"]] [["Yes"]] (by decide) (by decide) (by decide) (by decide)).2
     1 (by decide)⟩

/-! ## Claim C8 -/

theorem runFilterCalls_cached (l : List String) (fs : List (Except Unit ValueRange)) :
    runFilterCalls (some l) fs = (fs.map fun _ => l, some l, 0) := by
  induction fs with
  | nil => rfl
  | cons f fs ih => simp [runFilterCalls, get_log_filters, ih]

/-- C8: the creator-filter lookup reads the store at most once on the
successful path — starting from an unset cache, a first call whose fetch
succeeds invokes the store, and every later call in the sequence returns
the identical cached list without invoking the store, whatever the store
would answer then; and a call whose fetch errors returns an empty list
and leaves the cache unset. -/
theorem filters_cached_once (v : ValueRange) (rest : List (Except Unit ValueRange)) :
    (runFilterCalls none (Except.ok v :: rest)).1 =
      cleanFilters v :: (rest.map fun _ => cleanFilters v) ∧
    (runFilterCalls none (Except.ok v :: rest)).2.2 = 1 ∧
    get_log_filters none (Except.error ()) = ([], none, true) := by
  refine ⟨?_, ?_, rfl⟩ <;>
    simp [runFilterCalls, get_log_filters, runFilterCalls_cached]

/-! ## Claim C3: what a successful roll-over does -/

/-- Every successful `end_month` run issues exactly the five mutations:
duplicate the current month sheet, copy its values to the archive, hide
the archive, rename the current sheet to the next month's abbreviation,
and clear `Logs!A7:G`. -/
theorem end_month_success_shape (now : Date) (sheets : List Sheet) (store : MonthStore)
    (hs : (end_month now sheets store).1.1 = true) :
    ∃ cur archId archName,
      sheets.find? (fun s => s.title = upperAscii (monthAbbr now.month)) = some cur ∧
      (end_month now sheets store).2 =
        [SheetOp.duplicateSheet cur.sheetId 1 archName,
         SheetOp.copyValues (upperAscii (monthAbbr now.month) ++ "!A1:Z1000")
           (archName ++ "!A1:Z1000"),
         SheetOp.setHidden archId true,
         SheetOp.renameSheet cur.sheetId (nextMonthShort now),
         SheetOp.clearRange "Logs!A7:G"] := by
  rcases hres : end_month now sheets store with ⟨res, tr⟩
  rw [hres] at hs
  simp only at hs
  simp only [end_month] at hres
  split at hres
  · simp only [Prod.mk.injEq] at hres
    rw [← hres.1] at hs
    simp at hs
  · rename_i cur hfind
    split at hres
    · simp only [Prod.mk.injEq] at hres
      rw [← hres.1] at hs
      simp at hs
    · split at hres
      · simp only [Prod.mk.injEq] at hres
        rw [← hres.1] at hs
        simp at hs
      · split at hres
        · simp only [Prod.mk.injEq] at hres
          rw [← hres.1] at hs
          simp at hs
        · rename_i q15c q18c q21c hstore
          split at hres
          · simp only [Prod.mk.injEq] at hres
            rw [← hres.1] at hs
            simp at hs
          · split at hres
            · simp only [Prod.mk.injEq] at hres
              rw [← hres.1] at hs
              simp at hs
            · rename_i arch harch
              simp only [Prod.mk.injEq] at hres
              exact ⟨cur, arch.sheetId,
                monthFull now.month ++ " (" ++ q15c.getD "" ++ ")",
                hfind, hres.2.symm⟩

/-- Counterexample to C3 as stated: a successful October roll-over
renames the `OCT` sheet to `NOV`, yet the range it clears is
`Logs!A7:G` — the `Logs` ledger sheet — and no issued operation clears
`NOV!A7:G`, the record rows of the new active period sheet. -/
theorem end_month_clear_target_cex :
    (end_month ⟨2026, 10, 12⟩ [⟨1, "Logs", false⟩, ⟨2, "OCT", false⟩]
      octoberStore).1.1 = true ∧
    nextMonthShort ⟨2026, 10, 12⟩ = "NOV" ∧
    SheetOp.renameSheet 2 "NOV" ∈
      (end_month ⟨2026, 10, 12⟩ [⟨1, "Logs", false⟩, ⟨2, "OCT", false⟩]
        octoberStore).2 ∧
    SheetOp.clearRange "Logs!A7:G" ∈
      (end_month ⟨2026, 10, 12⟩ [⟨1, "Logs", false⟩, ⟨2, "OCT", false⟩]
        octoberStore).2 ∧
    ∀ op ∈ (end_month ⟨2026, 10, 12⟩ [⟨1, "Logs", false⟩, ⟨2, "OCT", false⟩]
      octoberStore).2, op ≠ SheetOp.clearRange "NOV!A7:G" := by
  refine ⟨by decide, by decide, by decide, by decide, by decide⟩

/-- C3 (amended): on every successful roll-over, the original
current-period sheet is renamed to the next period's abbreviation (and
that is the only rename), and the record rows cleared are `Logs!A7:G` on
the `Logs` ledger sheet — the only clear issued; no clear targets the
renamed period sheet, whose cells the roll-over leaves unchanged. -/
theorem end_month_rename_and_clear (now : Date) (sheets : List Sheet)
    (store : MonthStore) (hs : (end_month now sheets store).1.1 = true) :
    SheetOp.renameSheet (currentSheetId now sheets) (nextMonthShort now) ∈
      (end_month now sheets store).2 ∧
    SheetOp.clearRange "Logs!A7:G" ∈ (end_month now sheets store).2 ∧
    (∀ r, SheetOp.clearRange r ∈ (end_month now sheets store).2 → r = "Logs!A7:G") ∧
    (∀ i t, SheetOp.renameSheet i t ∈ (end_month now sheets store).2 →
      i = currentSheetId now sheets ∧ t = nextMonthShort now) := by
  obtain ⟨cur, archId, archName, hfind, htr⟩ :=
    end_month_success_shape now sheets store hs
  have hcur : currentSheetId now sheets = cur.sheetId := by
    unfold currentSheetId
    rw [hfind]
    rfl
  rw [htr, hcur]
  refine ⟨by simp, by simp, ?_, ?_⟩
  · intro r hr
    simpa using hr
  · intro i t hit
    simpa using hit

/-- Witness for `end_month_rename_and_clear` on the October sample. -/
theorem end_month_rename_and_clear_witness :
    SheetOp.renameSheet
        (currentSheetId ⟨2026, 10, 12⟩ [⟨1, "Logs", false⟩, ⟨2, "OCT", false⟩])
        (nextMonthShort ⟨2026, 10, 12⟩) ∈
      (end_month ⟨2026, 10, 12⟩ [⟨1, "Logs", false⟩, ⟨2, "OCT", false⟩]
        octoberStore).2 ∧
    SheetOp.clearRange "Logs!A7:G" ∈
      (end_month ⟨2026, 10, 12⟩ [⟨1, "Logs", false⟩, ⟨2, "OCT", false⟩]
        octoberStore).2 :=
  ⟨(end_month_rename_and_clear ⟨2026, 10, 12⟩ [⟨1, "Logs", false⟩, ⟨2, "OCT", false⟩]
      octoberStore (by decide)).1,
   (end_month_rename_and_clear ⟨2026, 10, 12⟩ [⟨1, "Logs", false⟩, ⟨2, "OCT", false⟩]
      octoberStore (by decide)).2.1⟩

/-! ## Claim C7: the next-period computation -/

theorem addDays_add (a b : Nat) (d : Date) :
    addDays (a + b) d = addDays b (addDays a d) := by
  induction a generalizing d with
  | zero => simp [addDays]
  | succ a ih =>
    have h1 : a + 1 + b = (a + b) + 1 := by omega
    rw [h1]
    show addDays (a + b) (nextDay d) = addDays b (addDays a (nextDay d))
    exact ih (nextDay d)

theorem addDays_within (n : Nat) : ∀ y m d : Nat, 1 ≤ d →
    d + n ≤ daysInMonth y m → addDays n ⟨y, m, d⟩ = ⟨y, m, d + n⟩ := by
  induction n with
  | zero => intro y m d h1 h2; rfl
  | succ n ih =>
    intro y m d h1 h2
    have hd : d < daysInMonth y m := by omega
    show addDays n (nextDay ⟨y, m, d⟩) = _
    have hnd : nextDay ⟨y, m, d⟩ = ⟨y, m, d + 1⟩ := by
      unfold nextDay
      simp [hd]
    rw [hnd, ih y m (d + 1) (by omega) (by omega)]
    have h3 : d + 1 + n = d + (n + 1) := by omega
    rw [h3]

theorem daysInMonth_ge (y m : Nat) : 28 ≤ daysInMonth y m := by
  unfold daysInMonth
  split
  · split <;> omega
  · split <;> omega

theorem daysInMonth_le (y m : Nat) : daysInMonth y m ≤ 31 := by
  unfold daysInMonth
  split
  · split <;> omega
  · split <;> omega

/-- `first-of-month + 32 days` always lands in the immediately following
calendar month, on day `33 - daysInMonth`. -/
theorem addDays32_first (y m : Nat) (h1 : 1 ≤ m) (h2 : m ≤ 12) :
    addDays 32 ⟨y, m, 1⟩ =
      ⟨if m = 12 then y + 1 else y, succMonth m, 33 - daysInMonth y m⟩ := by
  have hk1 := daysInMonth_ge y m
  have hk2 := daysInMonth_le y m
  set k := daysInMonth y m with hk
  have hsplit : 32 = (k - 1) + (1 + (32 - k)) := by omega
  rw [hsplit, addDays_add, addDays_within (k - 1) y m 1 le_rfl (by omega), addDays_add]
  have h1k : 1 + (k - 1) = k := by omega
  rw [h1k]
  show addDays (32 - k) (nextDay ⟨y, m, k⟩) = _
  by_cases hm12 : m = 12
  · subst hm12
    have hnd : nextDay ⟨y, 12, k⟩ = ⟨y + 1, 1, 1⟩ := by
      unfold nextDay
      rw [← hk]
      simp
    rw [hnd, addDays_within (32 - k) (y + 1) 1 1 le_rfl
      (by have := daysInMonth_ge (y + 1) 1; omega)]
    simp only [succMonth, if_pos, Date.mk.injEq]
    exact ⟨by simp, by simp, by omega⟩
  · have hmlt : m < 12 := by omega
    have hnd : nextDay ⟨y, m, k⟩ = ⟨y, m + 1, 1⟩ := by
      unfold nextDay
      rw [← hk]
      simp [hmlt]
    rw [hnd, addDays_within (32 - k) y (m + 1) 1 le_rfl
      (by have := daysInMonth_ge y (m + 1); omega)]
    simp only [succMonth, hm12, if_neg, Date.mk.injEq]
    exact ⟨by simp [hm12], by simp [hm12], by omega⟩

/-- C7: for every valid wall-clock date, the roll-over's next-period
computation — first day of the current month plus 32 days, re-normalized
to abbreviation and full name — yields exactly the calendar month
immediately following the current one, whatever the current month's
length (the year advancing only from December). -/
theorem next_period_is_following_month (now : Date)
    (h1 : 1 ≤ now.month) (h2 : now.month ≤ 12) :
    (addDays 32 ⟨now.year, now.month, 1⟩).month = succMonth now.month ∧
    (addDays 32 ⟨now.year, now.month, 1⟩).year =
      (if now.month = 12 then now.year + 1 else now.year) ∧
    nextMonthShort now = upperAscii (monthAbbr (succMonth now.month)) ∧
    nextMonthFull now = monthFull (succMonth now.month) := by
  have h := addDays32_first now.year now.month h1 h2
  simp only [nextMonthShort, nextMonthFull]
  rw [h]
  exact ⟨rfl, rfl, rfl, rfl⟩

/-- Witness for `next_period_is_following_month` on 2026-01-31 (a
31-day month rolling into February). -/
theorem next_period_is_following_month_witness :
    (addDays 32 ⟨2026, 1, 1⟩).month = succMonth 1 ∧
    (addDays 32 ⟨2026, 1, 1⟩).year = (if (1 : Nat) = 12 then 2026 + 1 else 2026) ∧
    nextMonthShort ⟨2026, 1, 31⟩ = upperAscii (monthAbbr (succMonth 1)) ∧
    nextMonthFull ⟨2026, 1, 31⟩ = monthFull (succMonth 1) :=
  next_period_is_following_month ⟨2026, 1, 31⟩ (by decide) (by decide)

/-! ## Claim C10 -/

/-- C10: resolving a short-link token that matches no entry of the
most recently cached logs fetch returns a negative (not-found) reply —
the empty-cache reply when no fetch has ever stored logs, the
link-not-found reply otherwise — and in particular never a `found`. -/
theorem getlink_not_found (recentLogs : List LogRow) (link : String)
    (h : ∀ log ∈ recentLogs, shortLink log.2.1 ≠ link) :
    getlink_slash recentLogs link =
      (if recentLogs.isEmpty then LinkReply.noRecent else LinkReply.notFound link) := by
  unfold getlink_slash
  match recentLogs with
  | [] => rfl
  | l :: ls =>
    have hf : (l :: ls).find? (fun log => shortLink log.2.1 = link) = none := by
      rw [List.find?_eq_none]
      intro x hx
      simpa using h x hx
    rw [hf]
    rfl

/-- Witness for `getlink_not_found`, covering both the populated-cache
miss and the never-fetched empty cache. -/
theorem getlink_not_found_witness :
    getlink_slash [("ann", "https://i.ibb.co/q/x.png", "3", "No")] "zzz.png" =
      (if ([("ann", "https://i.ibb.co/q/x.png", "3", "No")] : List LogRow).isEmpty
        then LinkReply.noRecent else LinkReply.notFound "zzz.png") ∧
    getlink_slash [] "zzz.png" =
      (if ([] : List LogRow).isEmpty then LinkReply.noRecent
        else LinkReply.notFound "zzz.png") :=
  ⟨getlink_not_found [("ann", "https://i.ibb.co/q/x.png", "3", "No")] "zzz.png"
      (by decide),
   getlink_not_found [] "zzz.png" (by decide)⟩

end Bot
